import Mathlib

/-!
Shallow embedding of `browser_use/agent/prompts.py` (prompt composition for a
browser-automation agent) together with the data model its methods consume.

Conventions of the embedding:
* Python strings are `String`; f-string interpolation is explicit `++`
  concatenation, grouped to the right. Literal text is transcribed byte for
  byte from the source (braces written with `\x7b`/`\x7d` escapes).
* Python `int` is `Int`; `datetime` is reduced to the fields read by
  `strftime('%Y-%m-%d %H:%M')`.
* Optional values are `Option`; Python truthiness of an optional string
  (`None` and `''` are falsy) and of an optional list (`None` and `[]` are
  falsy) is modelled explicitly.
* Python slicing `s[i:]` (negative index counted from the end, out-of-range
  clamped) is modelled by `pySliceFrom`.
* Code whose source is not under `src/` (the DOM tree renderer, the browser
  views, the agent views, the step pipeline) is modelled from the spec and
  marked as such in its doc comment.
-/

/-- Python truthiness of an `Optional[str]`: `None` and the empty string are falsy. -/
def optStrTruthy : Option String → Bool
  | none => false
  | some s => !(s == "")

/-- Python slicing `s[i:]` on a string with an arbitrary integer start index:
a negative index counts from the end and is clamped to the start, an index
past the end yields the empty string. -/
def pySliceFrom (i : Int) (s : String) : String :=
  if i < 0 then s.drop (s.length - (-i).toNat)
  else s.drop i.toNat

/-- Zero-padding to two digits, as Python strftime does for %m, %d, %H, %M. -/
def pad2 (n : Nat) : String :=
  if n < 10 then "0" ++ toString n else toString n

/-- Zero-padding to four digits, as Python strftime does for %Y. -/
def pad4 (n : Nat) : String :=
  if n < 10 then "000" ++ toString n
  else if n < 100 then "00" ++ toString n
  else if n < 1000 then "0" ++ toString n
  else toString n

/-- The slice of a Python `datetime` value read by prompt composition. -/
structure Datetime where
  year : Nat
  month : Nat
  day : Nat
  hour : Nat
  minute : Nat
  deriving DecidableEq

/-- Python `d.strftime('%Y-%m-%d %H:%M')` on the modelled datetime. -/
def Datetime.strftimeYmdHM (d : Datetime) : String :=
  pad4 d.year ++ "-" ++ pad2 d.month ++ "-" ++ pad2 d.day ++ " " ++
    pad2 d.hour ++ ":" ++ pad2 d.minute

/-- Modelled from the spec: one record of an Element Snapshot (spec section 3);
the DOM element implementation is not under src/. -/
structure ElementRecord where
  index : Option Nat
  tag : String
  text : String
  attributes : List (String × String)
  interactive : Bool
  deriving DecidableEq

/-- Modelled from the spec: the element tree carried by a State Descriptor,
an ordered sequence of element records (spec section 3); the DOM tree
implementation is not under src/. -/
structure DOMElementNode where
  elements : List ElementRecord
  deriving DecidableEq

/-- Modelled from the spec: the rendering of one element record
(spec section 4.1): `index[:]<tag>text</tag>` for interactive elements with
attributes filtered to the include list, `_[:]text` for context elements. -/
def renderElementRecord (includeAttributes : List String) (e : ElementRecord) : String :=
  if e.interactive then
    toString (e.index.getD 0) ++ "[:]<" ++ e.tag ++
      String.join ((e.attributes.filter (fun a => includeAttributes.contains a.1)).map
        (fun a => " " ++ a.1 ++ "=" ++ a.2)) ++
      ">" ++ e.text ++ "</" ++ e.tag ++ ">"
  else
    "_[:]" ++ e.text

/-- Modelled from the spec: `clickable_elements_to_string` of the DOM tree
(spec section 4.1), one line per rendered element; an empty snapshot renders
to the empty string. The implementation is not under src/. -/
def DOMElementNode.clickable_elements_to_string (t : DOMElementNode)
    (includeAttributes : List String) : String :=
  String.intercalate "\n" (t.elements.map (renderElementRecord includeAttributes))

/-- Modelled from the spec: a tab handle of the State Descriptor
("tabs: ordered sequence of tab handles", spec section 3); the browser views
module is not under src/. -/
structure TabInfo where
  page_id : Nat
  url : String
  title : String
  deriving DecidableEq

/-- Modelled from the spec: the textual form of one tab handle as interpolated
into prompts by Python str(). -/
def reprTabInfo (t : TabInfo) : String :=
  "TabInfo(page_id=" ++ toString t.page_id ++ ", url=" ++ t.url ++
    ", title=" ++ t.title ++ ")"

/-- Modelled from the spec: Python str() of the tab handle list. -/
def reprTabs (ts : List TabInfo) : String :=
  "[" ++ String.intercalate ", " (ts.map reprTabInfo) ++ "]"

/-- State Descriptor (`BrowserState` of browser_use.browser.views, not under
src/): the fields read by prompt composition, modelled from the spec
(spec section 3). -/
structure BrowserState where
  url : String
  tabs : List TabInfo
  element_tree : DOMElementNode
  screenshot : Option String
  deriving DecidableEq

/-- Action Result (`ActionResult` of browser_use.agent.views, not under src/):
modelled from the spec (spec section 3), the two fields read by prompt
composition. -/
structure ActionResult where
  extracted_content : Option String
  error : Option String
  deriving DecidableEq

/-- Step Info (`AgentStepInfo` of browser_use.agent.views, not under src/):
modelled from the spec (spec section 3). -/
structure AgentStepInfo where
  step_number : Nat
  max_steps : Nat
  deriving DecidableEq

/-- Python truthiness of an `Optional[List[ActionResult]]`: `None` and the
empty list are falsy. -/
def optListTruthy : Option (List ActionResult) → Bool
  | none => false
  | some l => !l.isEmpty

/-- One content part of a langchain `HumanMessage`: a Python dict of type
`text` or of type `image_url`. -/
inductive MessagePart where
  | textPart (text : String)
  | imageUrlPart (url : String)
  deriving DecidableEq

/-- Content of a langchain `HumanMessage`: a plain string or a list of parts. -/
inductive HumanContent where
  | ofText (s : String)
  | ofParts (parts : List MessagePart)
  deriving DecidableEq

/-- A langchain `SystemMessage`; prompts.py only ever builds string content. -/
structure SystemMessage where
  content : String
  deriving DecidableEq

/-- A langchain `HumanMessage`. -/
structure HumanMessage where
  content : HumanContent
  deriving DecidableEq

/-- The text carried by a human message: its string content, or the first
text part of a multi-part message. -/
def humanText (m : HumanMessage) : String :=
  match m.content with
  | HumanContent.ofText s => s
  | HumanContent.ofParts (MessagePart.textPart s :: _) => s
  | HumanContent.ofParts _ => ""

/-- The triple-quoted rule text of `SystemPrompt.important_rules`
(prompts.py lines 24-89), transcribed byte for byte as the ordered
concatenation of its pieces (split at the response-schema keys). -/
def rulesText : String :=
  "\n1. RESPONSE FORMAT: You must ALWAYS respond with valid JSON in this exact format:\n   \x7b\n     " ++ ("\"current_state\": \x7b" ++ ("\n       " ++ ("\"evaluation_previous_goal\": \"" ++ ("Success|Failed|Unknown - Analyze and compare the previous and current elements and the image to check if the previous goals/actions are succesful like intended by the task. Ignore the action result. The website is the ground truth. Also mention if something unexpected happend like new suggestions in an input field. Shortly state why/why not. Most importantly, all your actions may not be succesfully executed by the user, so despite the memory and input prompt, you need to re-evaluate the situation and decide whether you need to continue with the same actions or change them. Make sure to re-evaluate the situation and provide a reason for failure/unknown, for example: 'Problem:My search query is too complex due to the use of multiple logical operators and no results were found.' Then come up with a new solution to your problem, example: 'Solution: Try a simpler search query without quotation marks and logical operators to find more results and then filter the results.'\",\n       " ++ ("\"memory\": \"" ++ ("Description of what has been done and what you need to remember until the end of the task\",\n       " ++ ("\"next_goal\": \"" ++ ("What needs to be done with the next actions\"\n     \x7d,\n     " ++ ("\"action\": [" ++ ("\n       \x7b\n         \"one_action_name\": \x7b\n           // action-specific parameter\n         \x7d\n       \x7d,\n       // ... more actions in sequence\n     ]\n   \x7d\n\n2. ACTIONS: You can specify multiple actions in the list to be executed in sequence. " ++ ("But always specify " ++ ("only one action name per item" ++ (". \n\n   Common action sequences:\n   - Form filling: [\n       \x7b\"input_text\": \x7b\"index\": 1, \"text\": \"username\"\x7d\x7d,\n       \x7b\"input_text\": \x7b\"index\": 2, \"text\": \"password\"\x7d\x7d,\n       \x7b\"click_element\": \x7b\"index\": 3\x7d\x7d\n     ]\n   - Navigation and extraction: [\n       \x7b\"open_new_tab\": \x7b\x7d\x7d,\n       \x7b\"go_to_url\": \x7b\"url\": \"https://example.com\"\x7d\x7d,\n       \x7b\"extract_page_content\": \x7b\x7d\x7d\n     ]\n\n3. ELEMENT INTERACTION:\n   - Only use indexes that exist in the provided element list\n   - Each element has a unique index number (e.g., \"33[:]<button>\")\n   - Elements marked with \"_[:]\" are non-interactive (for context only)\n\n4. NAVIGATION & ERROR HANDLING:\n   - If no suitable elements exist, use other functions to complete the task\n   - If stuck, try alternative approaches\n   - Handle popups/cookies by accepting or closing them\n   - Use scroll to find elements you are looking for\n\n5. TASK COMPLETION:\n   - Use the done action as the last action as soon as the task is complete\n   - Don't hallucinate actions\n   - If the task requires specific information - make sure to include everything in the done function. This is what the user will see.\n   - If you are running out of steps (current step), think about speeding it up, and ALWAYS use the done action as the last action.\n\n6. Form filling:\n   - If you fill an input field and your action sequence is interrupted, most often a list with suggestions poped up under the field and you need to first select the right element from the suggestion list.\n\n7. Searching via input box:\n\t- If you fill out an input field for the purpose of searching, then you need to use send_keys with enter key to submit the search. Try using send_keys and only if that fails, use click_element to submit the search.\n\n8. ACTION SEQUENCING:\n   - Actions are executed in the order they appear in the list \n   - Each action should logically follow from the previous one\n   - If the page changes after an action, the sequence is interrupted and you get the new state. This mean your previous actions may not be succesfully executed by the user. You must re-evaluate the situation and decide whether you need to continue with the same actions or change them.\n   - If content only disappears the sequence continues.\n   - Only provide the action sequence until you think the page will change. For example, if you type something in an input field, suggestions pop up and the page changes. You need to provide the action sequence until you think the page will change.\n   - Try to be efficient, e.g. fill forms at once, or chain actions where nothing changes on the page like saving, extracting, checkboxes...\n   - only use multiple actions if it makes sense. \n\n9. Troubleshooting: If you are stuck and an action fails, try to find the reason for the failure and try out a different approach. If you come up with a sequence of actions, and if your sequence is interrupted because of the page changing or something new appearing on the page, then propose an action sequence with only one single action.\n")))))))))))))

/-- The triple-quoted literal returned by `SystemPrompt.input_format`
(prompts.py lines 94-112). -/
def inputFormatText : String :=
  "\nINPUT STRUCTURE:\n1. Current URL: The webpage you're currently on\n2. Available Tabs: List of open browser tabs\n3. Interactive Elements: List in the format:\n   index[:]<element_type>element_text</element_type>\n   - index: Numeric identifier for interaction\n   - element_type: HTML element type (button, input, etc.)\n   - element_text: Visible text or element description\n\nExample:\n33[:]<button>Submit Form</button>\n_[:] Non-interactive text\n\n\nNotes:\n- Only elements with numeric indexes are interactive\n- _[:] elements provide context but cannot be interacted with\n"

/-- The AGENT_PROMPT literal of `get_system_message` up to the interpolated
time stamp (prompts.py lines 123-128). -/
def sysPromptIntro : String :=
  "You are a precise browser automation agent that interacts with websites through structured commands. Your role is to:\n1. Analyze the provided webpage elements and structure\n2. Plan a sequence of actions to accomplish the given task\n3. Respond with valid JSON containing your action sequence and state assessment\n\nCurrent date and time: "

/-- The AGENT_PROMPT literal of `get_system_message` after the interpolated
action description (prompts.py line 137). -/
def sysPromptTail : String :=
  "\n\nRemember: Your responses must be valid JSON matching the specified format. Each action in the sequence must be valid."

/-- The constructor of `SystemPrompt` (prompts.py lines 11-18). -/
structure SystemPrompt where
  default_action_description : String
  current_date : Datetime
  max_actions_per_step : Int
  include_attributes : List String
  deriving DecidableEq

/-- `SystemPrompt.important_rules` (prompts.py lines 20-91): the fixed rule
text followed by the appended per-step action cap line. -/
def SystemPrompt.important_rules (self : SystemPrompt) : String :=
  rulesText ++ ("   - " ++ ("use maximum " ++ (toString self.max_actions_per_step ++ " actions per sequence")))

/-- `SystemPrompt.input_format` (prompts.py lines 93-112). -/
def SystemPrompt.input_format (_self : SystemPrompt) : String :=
  inputFormatText

/-- `SystemPrompt.get_system_message` (prompts.py lines 114-138). -/
def SystemPrompt.get_system_message (self : SystemPrompt) : SystemMessage :=
  let time_str := self.current_date.strftimeYmdHM
  ⟨sysPromptIntro ++ (time_str ++ ("\n\n" ++ (self.input_format ++ ("\n\n" ++ (self.important_rules ++ ("\n\n" ++ ("Functions:\n" ++ (self.default_action_description ++ sysPromptTail))))))))⟩

/-- The result/error loop shared verbatim by `get_eval_prompt`
(prompts.py lines 157-163, with the fixed slice `[-400:]`) and
`get_user_message` (prompts.py lines 325-331, with the configured
`max_error_length`): the two appended f-string lines for one enumerated
action result, guarded by Python truthiness of its optional fields. -/
def appendResultLines (n : Nat) (max_error_length : Int) (acc : String) (i : Nat)
    (r : ActionResult) : String :=
  let acc1 :=
    if optStrTruthy r.extracted_content then
      acc ++ ("\nAction result " ++ (toString (i + 1) ++ ("/" ++ (toString n ++ (": " ++ r.extracted_content.getD "")))))
    else acc
  if optStrTruthy r.error then
    acc1 ++ ("\nAction error " ++ (toString (i + 1) ++ ("/" ++ (toString n ++ (": ..." ++ pySliceFrom (-max_error_length) (r.error.getD ""))))))
  else acc1

/-- The `for i, result in enumerate(...)` loop appending result/error lines
to an accumulated prompt string. -/
def renderResults (n : Nat) (max_error_length : Int) : Nat → List ActionResult → String → String
  | _, [], acc => acc
  | i, r :: rs, acc =>
    renderResults n max_error_length (i + 1) rs (appendResultLines n max_error_length acc i r)

/-- The outer literal of `get_eval_prompt` up to the interpolated context
(prompts.py line 165-167). -/
def evalPromptIntro : String :=
  "You are a state evaluator. Your role is to carefully analyze browser states and determine progress.\n\nCONTEXT:\n"

/-- The outer literal of `get_eval_prompt` after the interpolated time stamp
(prompts.py lines 171-214). -/
def evalPromptTail : String :=
  "\n\nINSTRUCTIONS:\n1. Compare the previous and current browser states\n2. Evaluate if the previous goal was achieved successfully\n3. Plan the next logical goal based on the current state\n4. Keep track of important information in memory\n\nSTATE COMPARISON: When evaluating goal success:\n- Compare URLs to detect page transitions\n- Track which elements appeared/disappeared\n- Check if new elements match expected outcomes\n- Consider error messages in previous results\n- Example: 'Success - Search box was filled and results page loaded. Previous URL was google.com, current URL shows search results. Search button (index 3) disappeared, new result links (indices 10-20) appeared.\n\nFAILURE ANALYSIS: If goal failed, explain:\n- What elements changed unexpectedly\n- What elements were missing\n- What went wrong with the previous action\n- How to adjust the approach\n\nVISUAL CONTEXT:\n- When an image is provided, use it to understand the page layout\n- Bounding boxes with labels correspond to element indexes\n- Each bounding box and its label have the same color\n- Most often the label is inside the bounding box, on the top right\n- Visual context helps verify element locations and relationships\n- sometimes labels overlap, so use the context to verify the correct element\n\nReturn JSON in this exact format:\n\x7b\n    \"current_state\": \x7b\n        \"evaluation_previous_goal\": \"Detailed analysis of success/failure with specific reasons\",\n        \"memory\": \"Key information about progress and state that needs to be remembered\",\n        \"next_goal\": \"Clear, specific next step to achieve the overall task\"\n    \x7d\n\x7d\n\nEXAMPLE:\n\x7b\n    \"current_state\": \x7b\n        \"evaluation_previous_goal\": \"Successfully navigated to google.com from blank page. URL changed from 'about:blank' to 'www.google.com'\",\n        \"memory\": \"Currently on Google search homepage. Search box is visible and interactive\",\n        \"next_goal\": \"Type 'OpenAI' into the main search box\"\n    \x7d\n\x7d"

/-- The `state_context` f-string of `get_eval_prompt` (prompts.py lines
147-155). Optional states and goal render as the Python conditional
expressions `x.field if x else 'None'`; for the goal, Python truthiness
makes an empty goal render as 'None'. -/
def evalStateContext (self : SystemPrompt)
    (previous_state : Option BrowserState) (previous_goal : Option String)
    (current_state : Option BrowserState) : String :=
  "\nPrevious State URL: " ++ ((match previous_state with | some s => s.url | none => "None") ++
    ("\nPrevious State Tabs: " ++ ((match previous_state with | some s => reprTabs s.tabs | none => "None") ++
    ("\nPrevious State Elements: " ++ ((match previous_state with | some s => s.element_tree.clickable_elements_to_string self.include_attributes | none => "None") ++
    ("\nPrevious Goal: " ++ ((if optStrTruthy previous_goal then previous_goal.getD "" else "None") ++
    ("\nCurrent State URL: " ++ ((match current_state with | some s => s.url | none => "None") ++
    ("\nCurrent State Tabs: " ++ ((match current_state with | some s => reprTabs s.tabs | none => "None") ++
    ("\nCurrent State Elements: " ++ ((match current_state with | some s => s.element_tree.clickable_elements_to_string self.include_attributes | none => "None") ++
    "\n")))))))))))))

/-- `SystemPrompt.get_eval_prompt` (prompts.py lines 140-214): the state
context, then the action results appended with the fixed `[-400:]` error
slice, interpolated into the outer evaluator template. -/
def SystemPrompt.get_eval_prompt (self : SystemPrompt)
    (previous_state : Option BrowserState) (previous_goal : Option String)
    (current_state : Option BrowserState) (result : Option (List ActionResult)) :
    SystemMessage :=
  let state_context := evalStateContext self previous_state previous_goal current_state
  let state_context :=
    if optListTruthy result then
      renderResults (result.getD []).length 400 0 (result.getD []) state_context
    else state_context
  ⟨evalPromptIntro ++ (state_context ++ ("\nCurrent date and time: " ++ (self.current_date.strftimeYmdHM ++ evalPromptTail)))⟩

/-- The outer literal of `get_filter_prompt` up to the interpolated next goal
(prompts.py lines 226-242). -/
def filterPromptIntro : String :=
  "You are a DOM analyzer. Filter elements relevant to the goal.\n\nInteractive Elements: List in the format:\n   index[:]<element_type>element_text</element_type>\n   - index: Numeric identifier for interaction\n   - element_type: HTML element type (button, input, etc.)\n   - element_text: Visible text or element description\n\nExample:\n33[:]<button>Submit Form</button>\n_[:] Non-interactive text\n\nNotes:\n- Only elements with numeric indexes are interactive\n- _[:] elements provide context but cannot be interacted with\n\nNext Goal: "

/-- `SystemPrompt.get_filter_prompt` (prompts.py lines 216-247). A `None`
next goal interpolates as Python str(None), the literal 'None'. -/
def SystemPrompt.get_filter_prompt (self : SystemPrompt)
    (next_goal : Option String) (current_state : Option BrowserState) : SystemMessage :=
  let state_context :=
    "\nCurrent URL: " ++ ((match current_state with | some s => s.url | none => "None") ++
    ("\nOpen Tabs: " ++ ((match current_state with | some s => reprTabs s.tabs | none => "None") ++
    ("\nAvailable Elements: " ++ ((match current_state with | some s => s.element_tree.clickable_elements_to_string self.include_attributes | none => "None") ++
    "\n")))))
  ⟨filterPromptIntro ++ ((match next_goal with | some g => g | none => "None") ++ ("\n" ++ (state_context ++ ("\n\nCurrent date and time: " ++ (self.current_date.strftimeYmdHM ++ "\nReturn the filtered interactive elements in the same format as the example.\n")))))⟩

/-- The AGENT_PROMPT literal of `get_action_prompt` up to the interpolated
time stamp (prompts.py lines 256-261). -/
def actionPromptIntro : String :=
  "You are a precise browser automation agent that interacts with websites through structured commands. Your role is to:\n\t\t1. Analyze the provided webpage elements and structure\n\t\t2. Plan a sequence of actions to accomplish the given task\n\t\t3. Respond with valid JSON containing your action sequence and state assessment\n\n\t\tCurrent date and time: "

/-- The AGENT_PROMPT literal of `get_action_prompt` after the interpolated
filter result (prompts.py line 276). -/
def actionPromptTail : String :=
  "\n\n\t\tRemember: Your responses must be valid JSON matching the specified format. Each action in the sequence must be valid."

/-- `SystemPrompt.get_action_prompt` (prompts.py lines 249-277). -/
def SystemPrompt.get_action_prompt (self : SystemPrompt)
    (eval_result : String) (filter_result : String) (next_goal : String)
    (memory : String) : SystemMessage :=
  ⟨actionPromptIntro ++ (self.current_date.strftimeYmdHM ++ ("\n\n\t\t" ++ (self.input_format ++ ("\n\n\t\t" ++ (self.important_rules ++ ("\n\n\t\tFunctions:\n\t\t" ++ (self.default_action_description ++ ("\n\n\n\t\tEvaluation Result of previous goal: " ++ (eval_result ++ ("\n\t\tMemory: " ++ (memory ++ ("\n\t\tNext Goal: " ++ (next_goal ++ ("\n\t\tFiltered Elements: " ++ (filter_result ++ actionPromptTail)))))))))))))))⟩

/-- The constructor of `AgentMessagePrompt` (prompts.py lines 286-302). -/
structure AgentMessagePrompt where
  state : Option BrowserState
  result : Option (List ActionResult)
  include_attributes : List String
  max_error_length : Int
  step_info : Option AgentStepInfo
  previous_state : Option BrowserState
  previous_goal : Option String
  deriving DecidableEq

/-- The `state_comparison` block of `get_user_message` (prompts.py lines
306-312): present exactly when `self.previous_state and self.previous_goal`
is Python-truthy, which for the optional goal string means present and
non-empty (a `BrowserState` object is always truthy). -/
def AgentMessagePrompt.state_comparison (self : AgentMessagePrompt) : String :=
  match self.previous_state, self.previous_goal with
  | some ps, some goal =>
    if goal == "" then ""
    else
      "\nPrevious Goal: " ++ (goal ++ ("\nPrevious URL: " ++ (ps.url ++ ("\nPrevious Elements: " ++ (ps.element_tree.clickable_elements_to_string self.include_attributes ++ "\n")))))
  | _, _ => ""

/-- The base `state_description` f-string of `get_user_message`
(prompts.py lines 315-322), for the current state `st`. -/
def AgentMessagePrompt.base_state_description (self : AgentMessagePrompt)
    (st : BrowserState) : String :=
  "\n" ++ (self.state_comparison ++ ("\nCurrent URL: " ++ (st.url ++ ("\nAvailable tabs:\n" ++ (reprTabs st.tabs ++ ("\nInteractive elements from current page view:\n" ++ (st.element_tree.clickable_elements_to_string self.include_attributes ++ "\n")))))))

/-- The full `state_description` of `get_user_message` after the result loop
(prompts.py lines 314-331). -/
def AgentMessagePrompt.state_description (self : AgentMessagePrompt)
    (st : BrowserState) : String :=
  if optListTruthy self.result then
    renderResults (self.result.getD []).length self.max_error_length 0
      (self.result.getD []) (self.base_state_description st)
  else self.base_state_description st

/-- `AgentMessagePrompt.get_user_message` (prompts.py lines 304-345). When
`state` is `None` the Python method would fail on attribute access, so the
embedding returns `none`; a Python-truthy (present and non-empty) screenshot
selects the multi-part vision message. -/
def AgentMessagePrompt.get_user_message (self : AgentMessagePrompt) : Option HumanMessage :=
  match self.state with
  | none => none
  | some st =>
    if optStrTruthy st.screenshot then
      some ⟨HumanContent.ofParts [MessagePart.textPart (self.state_description st), MessagePart.imageUrlPart ("data:image/png;base64," ++ st.screenshot.getD "")]⟩
    else
      some ⟨HumanContent.ofText (self.state_description st)⟩

/-- Substring occurrence: `p` occurs contiguously inside `s`. -/
def strOccurs (p s : String) : Prop :=
  ∃ a b, s = a ++ (p ++ b)

theorem strOccurs_refl (p : String) : strOccurs p p :=
  ⟨"", "", by rw [String.append_empty, String.empty_append]⟩

theorem strOccurs_head (p t : String) : strOccurs p (p ++ t) :=
  ⟨"", t, by rw [String.empty_append]⟩

theorem strOccurs_of_eq_append {p s pre : String} (h : s = pre ++ p) : strOccurs p s :=
  ⟨pre, "", by rw [h, String.append_empty]⟩

theorem strOccurs_appendLeft (t : String) {p s : String} (h : strOccurs p s) :
    strOccurs p (t ++ s) := by
  obtain ⟨a, b, rfl⟩ := h
  exact ⟨t ++ a, b, by rw [String.append_assoc]⟩

theorem strOccurs_appendRight (t : String) {p s : String} (h : strOccurs p s) :
    strOccurs p (s ++ t) := by
  obtain ⟨a, b, rfl⟩ := h
  exact ⟨a, b ++ t, by simp [String.append_assoc]⟩

theorem strOccurs_congr {p q s : String} (h : q = p) (ho : strOccurs p s) :
    strOccurs q s :=
  h ▸ ho

/-- Occurrence agrees with the decidable infix relation on the character
lists, which lets concrete occurrences be refuted by `decide`. -/
theorem strOccurs_data_iff (p s : String) : strOccurs p s ↔ p.data <:+: s.data := by
  constructor
  · rintro ⟨a, b, rfl⟩
    exact ⟨a.data, b.data, by simp [String.data_append]⟩
  · rintro ⟨u, v, huv⟩
    refine ⟨⟨u⟩, ⟨v⟩, String.ext ?_⟩
    rw [String.data_append, String.data_append, ← huv, List.append_assoc]

theorem appendResultLines_eq (n : Nat) (mE : Int) (acc : String) (i : Nat)
    (r : ActionResult) :
    appendResultLines n mE acc i r = acc ++ appendResultLines n mE "" i r := by
  unfold appendResultLines
  by_cases h1 : optStrTruthy r.extracted_content <;>
    by_cases h2 : optStrTruthy r.error <;>
      simp [h1, h2, String.append_assoc, String.empty_append, String.append_empty]

theorem renderResults_eq (n : Nat) (mE : Int) (rs : List ActionResult) (i : Nat)
    (acc : String) :
    renderResults n mE i rs acc = acc ++ renderResults n mE i rs "" := by
  induction rs generalizing i acc with
  | nil => simp [renderResults, String.append_empty]
  | cons r rs ih =>
    simp only [renderResults]
    rw [ih, appendResultLines_eq, String.append_assoc, ← ih]

/-- When a result carries a Python-truthy error, its two appended lines end
with the error line built from the sliced error text. -/
theorem appendResultLines_error (n : Nat) (mE : Int) (acc : String) (i : Nat)
    (r : ActionResult) (e : String) (he : r.error = some e) (hne : e ≠ "") :
    ∃ pre, appendResultLines n mE acc i r =
      pre ++ ("\nAction error " ++ (toString (i + 1) ++ ("/" ++ (toString n ++ (": ..." ++ pySliceFrom (-mE) e))))) := by
  have htr : optStrTruthy r.error = true := by
    rw [he]; simp [optStrTruthy, hne]
  unfold appendResultLines
  rw [if_pos htr, he]
  exact ⟨_, rfl⟩

/-- When a result carries Python-truthy extracted content, its appended lines
start with the content line (the error line, if any, follows inside `suf`). -/
theorem appendResultLines_result (n : Nat) (mE : Int) (acc : String) (i : Nat)
    (r : ActionResult) (c : String) (hc : r.extracted_content = some c) (hne : c ≠ "") :
    ∃ suf, appendResultLines n mE acc i r =
      acc ++ ("\nAction result " ++ (toString (i + 1) ++ ("/" ++ (toString n ++ (": " ++ (c ++ suf)))))) := by
  have htr : optStrTruthy r.extracted_content = true := by
    rw [hc]; simp [optStrTruthy, hne]
  unfold appendResultLines
  rw [if_pos htr, hc]
  by_cases h2 : optStrTruthy r.error
  · rw [if_pos h2]
    refine ⟨"\nAction error " ++ (toString (i + 1) ++ ("/" ++ (toString n ++ (": ..." ++ pySliceFrom (-mE) (r.error.getD ""))))), ?_⟩
    simp [String.append_assoc]
  · rw [if_neg h2]
    refine ⟨"", ?_⟩
    simp [String.append_empty]

/-- The error line of the i-th result (0-based position i, enumeration
started at j) occurs in the rendered result block. -/
theorem renderResults_occurs_error (n : Nat) (mE : Int) (rs : List ActionResult)
    (r : ActionResult) (e : String) (j i : Nat) (acc : String)
    (hi : rs[i]? = some r) (he : r.error = some e) (hne : e ≠ "") :
    strOccurs ("\nAction error " ++ (toString (j + i + 1) ++ ("/" ++ (toString n ++ (": ..." ++ pySliceFrom (-mE) e)))))
      (renderResults n mE j rs acc) := by
  induction rs generalizing j i acc with
  | nil => simp at hi
  | cons r0 rs ih =>
    cases i with
    | zero =>
      rw [List.getElem?_cons_zero] at hi
      injection hi with hi
      subst hi
      simp only [renderResults]
      rw [renderResults_eq]
      apply strOccurs_appendRight
      obtain ⟨pre, hpre⟩ := appendResultLines_error n mE acc j r0 e he hne
      exact strOccurs_of_eq_append hpre
    | succ i =>
      rw [List.getElem?_cons_succ] at hi
      simp only [renderResults]
      rw [show j + (i + 1) + 1 = (j + 1) + i + 1 from by omega]
      exact ih (j + 1) i _ hi

/-- The content line of the i-th result occurs in the rendered result block. -/
theorem renderResults_occurs_result (n : Nat) (mE : Int) (rs : List ActionResult)
    (r : ActionResult) (c : String) (j i : Nat) (acc : String)
    (hi : rs[i]? = some r) (hc : r.extracted_content = some c) (hne : c ≠ "") :
    strOccurs ("\nAction result " ++ (toString (j + i + 1) ++ ("/" ++ (toString n ++ (": " ++ c)))))
      (renderResults n mE j rs acc) := by
  induction rs generalizing j i acc with
  | nil => simp at hi
  | cons r0 rs ih =>
    cases i with
    | zero =>
      rw [List.getElem?_cons_zero] at hi
      injection hi with hi
      subst hi
      simp only [renderResults]
      rw [renderResults_eq]
      apply strOccurs_appendRight
      obtain ⟨suf, hsuf⟩ := appendResultLines_result n mE acc j r0 c hc hne
      exact ⟨acc, suf, by rw [hsuf]; simp [String.append_assoc]⟩
    | succ i =>
      rw [List.getElem?_cons_succ] at hi
      simp only [renderResults]
      rw [show j + (i + 1) + 1 = (j + 1) + i + 1 from by omega]
      exact ih (j + 1) i _ hi

/-- Negative slicing by a positive bound within range keeps exactly the
trailing `m` characters: the slice is a suffix of length `m`. -/
theorem pySliceFrom_neg_spec (m : Int) (s : String) (hm : 0 < m)
    (hlen : m < (s.length : Int)) :
    pySliceFrom (-m) s = s.drop (s.length - m.toNat) ∧
    ((pySliceFrom (-m) s).length : Int) = m ∧
    ∃ hd, s = hd ++ pySliceFrom (-m) s := by
  have hsl : s.length = s.data.length := rfl
  have h1 : pySliceFrom (-m) s = s.drop (s.length - m.toNat) := by
    unfold pySliceFrom
    rw [if_pos (by omega), neg_neg]
  refine ⟨h1, ?_, ?_⟩
  · rw [h1, String.drop_eq]
    show ((s.data.drop (s.length - m.toNat)).length : Int) = m
    rw [List.length_drop]
    omega
  · refine ⟨⟨s.data.take (s.length - m.toNat)⟩, ?_⟩
    rw [h1, String.drop_eq]
    refine String.ext ?_
    rw [String.data_append]
    exact (List.take_append_drop _ _).symm

/-- The full state description extends the base description on the right. -/
theorem state_description_decomp (p : AgentMessagePrompt) (st : BrowserState) :
    ∃ t, p.state_description st = p.base_state_description st ++ t := by
  unfold AgentMessagePrompt.state_description
  by_cases h : optListTruthy p.result
  · rw [if_pos h, renderResults_eq]
    exact ⟨_, rfl⟩
  · rw [if_neg h]
    exact ⟨"", (String.append_empty _).symm⟩

/-- The user message always exists for a present state, and its text is the
state description; the screenshot only selects the message shape. -/
theorem get_user_message_text (p : AgentMessagePrompt) (st : BrowserState)
    (hst : p.state = some st) :
    ∃ msg, p.get_user_message = some msg ∧ humanText msg = p.state_description st := by
  by_cases h : optStrTruthy st.screenshot
  · refine ⟨⟨HumanContent.ofParts [MessagePart.textPart (p.state_description st), MessagePart.imageUrlPart ("data:image/png;base64," ++ st.screenshot.getD "")]⟩, ?_, rfl⟩
    simp [AgentMessagePrompt.get_user_message, hst, h]
  · refine ⟨⟨HumanContent.ofText (p.state_description st)⟩, ?_, rfl⟩
    simp [AgentMessagePrompt.get_user_message, hst, h]

/-- State-passing form of `get_system_message`: the method only reads `self`
(no field assignment, no I/O call appears in prompts.py lines 114-138), so
the translated post-state is the pre-state unchanged. -/
def SystemPrompt.get_system_message_step (self : SystemPrompt) :
    SystemMessage × SystemPrompt :=
  (self.get_system_message, self)

/-- State-passing form of `get_eval_prompt` over `self` and its four
arguments (prompts.py lines 140-214 contain no assignment to any of them
and no I/O call). -/
def SystemPrompt.get_eval_prompt_step (self : SystemPrompt)
    (previous_state : Option BrowserState) (previous_goal : Option String)
    (current_state : Option BrowserState) (result : Option (List ActionResult)) :
    SystemMessage × (SystemPrompt × Option BrowserState × Option String × Option BrowserState × Option (List ActionResult)) :=
  (self.get_eval_prompt previous_state previous_goal current_state result,
    (self, previous_state, previous_goal, current_state, result))

/-- State-passing form of `get_filter_prompt` (prompts.py lines 216-247). -/
def SystemPrompt.get_filter_prompt_step (self : SystemPrompt)
    (next_goal : Option String) (current_state : Option BrowserState) :
    SystemMessage × (SystemPrompt × Option String × Option BrowserState) :=
  (self.get_filter_prompt next_goal current_state, (self, next_goal, current_state))

/-- State-passing form of `get_action_prompt` (prompts.py lines 249-277). -/
def SystemPrompt.get_action_prompt_step (self : SystemPrompt)
    (eval_result : String) (filter_result : String) (next_goal : String)
    (memory : String) :
    SystemMessage × (SystemPrompt × String × String × String × String) :=
  (self.get_action_prompt eval_result filter_result next_goal memory,
    (self, eval_result, filter_result, next_goal, memory))

/-- State-passing form of `get_user_message` (prompts.py lines 304-345 only
read `self` and build fresh strings; Python strings are immutable, so the
`+=` on the local is rebinding, not mutation). -/
def AgentMessagePrompt.get_user_message_step (self : AgentMessagePrompt) :
    Option HumanMessage × AgentMessagePrompt :=
  (self.get_user_message, self)

/-- Modelled from the spec: one action of an Agent Decision
(spec section 3: action_name plus a parameter mapping); the Agent Decision
and Step Pipeline sources are not under src/. -/
structure AgentAction where
  name : String
  parameters : List (String × String)
  deriving DecidableEq

/-- Modelled from the spec: the driver's report for one executed action, its
Action Result plus whether the driver detected a page change
(spec section 4.3, Executing). -/
structure DriverOutcome where
  result : ActionResult
  page_changed : Bool
  deriving DecidableEq

/-- Modelled from the spec (section 4.3, Executing; the Step Pipeline source
is not under src/): apply the decision's actions in strict order; if a
page-changing action is detected mid-sequence, the remaining actions of the
same decision are discarded. Returns the executed actions' results and
whether the sequence was interrupted. -/
def executeActions (driver : AgentAction → DriverOutcome) :
    List AgentAction → List ActionResult × Bool
  | [] => ([], false)
  | a :: rest =>
    let o := driver a
    if o.page_changed then ([o.result], true)
    else
      let t := executeActions driver rest
      (o.result :: t.1, t.2)

/-- Modelled from the spec (section 4.3, Aggregating): the discard notice
recorded when the sequence was interrupted after `executed` of `total`
actions. -/
def interruption_notice (executed total : Nat) : ActionResult :=
  ⟨some ("The sequence was interrupted" ++ (" after action " ++ (toString executed ++ ("/" ++ (toString total ++ "; the remaining actions were discarded"))))), none⟩

/-- Modelled from the spec (section 4.3, Aggregating): collect the per-action
results of one step, including the discard notice if the sequence was
interrupted, as the result list fed to the next observation prompt. -/
def aggregateResults (driver : AgentAction → DriverOutcome)
    (actions : List AgentAction) : List ActionResult :=
  let t := executeActions driver actions
  if t.2 then t.1 ++ [interruption_notice t.1.length actions.length] else t.1

theorem strOccurs_in_important_rules_system (sp : SystemPrompt) {p : String}
    (h : strOccurs p sp.important_rules) :
    strOccurs p sp.get_system_message.content := by
  show strOccurs p (sysPromptIntro ++ (sp.current_date.strftimeYmdHM ++ ("\n\n" ++ (sp.input_format ++ ("\n\n" ++ (sp.important_rules ++ ("\n\n" ++ ("Functions:\n" ++ (sp.default_action_description ++ sysPromptTail)))))))))
  apply strOccurs_appendLeft
  apply strOccurs_appendLeft
  apply strOccurs_appendLeft
  apply strOccurs_appendLeft
  apply strOccurs_appendLeft
  exact strOccurs_appendRight _ h

theorem strOccurs_in_rulesText_system (sp : SystemPrompt) {p : String}
    (h : strOccurs p rulesText) :
    strOccurs p sp.get_system_message.content := by
  apply strOccurs_in_important_rules_system
  show strOccurs p (rulesText ++ _)
  exact strOccurs_appendRight _ h

theorem rulesText_occ_current_state : strOccurs "\"current_state\": \x7b" rulesText := by
  unfold rulesText
  apply strOccurs_appendLeft
  exact strOccurs_head _ _

theorem rulesText_occ_eval_goal : strOccurs "\"evaluation_previous_goal\": \"" rulesText := by
  unfold rulesText
  apply strOccurs_appendLeft
  apply strOccurs_appendLeft
  apply strOccurs_appendLeft
  exact strOccurs_head _ _

theorem rulesText_occ_memory : strOccurs "\"memory\": \"" rulesText := by
  unfold rulesText
  apply strOccurs_appendLeft
  apply strOccurs_appendLeft
  apply strOccurs_appendLeft
  apply strOccurs_appendLeft
  apply strOccurs_appendLeft
  exact strOccurs_head _ _

theorem rulesText_occ_next_goal : strOccurs "\"next_goal\": \"" rulesText := by
  unfold rulesText
  apply strOccurs_appendLeft
  apply strOccurs_appendLeft
  apply strOccurs_appendLeft
  apply strOccurs_appendLeft
  apply strOccurs_appendLeft
  apply strOccurs_appendLeft
  apply strOccurs_appendLeft
  exact strOccurs_head _ _

theorem rulesText_occ_action : strOccurs "\"action\": [" rulesText := by
  unfold rulesText
  apply strOccurs_appendLeft
  apply strOccurs_appendLeft
  apply strOccurs_appendLeft
  apply strOccurs_appendLeft
  apply strOccurs_appendLeft
  apply strOccurs_appendLeft
  apply strOccurs_appendLeft
  apply strOccurs_appendLeft
  apply strOccurs_appendLeft
  exact strOccurs_head _ _

theorem strOccurs_pair (a b t : String) : strOccurs (a ++ b) (a ++ (b ++ t)) :=
  ⟨"", t, by simp [String.append_assoc, String.empty_append]⟩

theorem rulesText_occ_one_action_name : strOccurs "But always specify only one action name per item" rulesText := by
  unfold rulesText
  apply strOccurs_appendLeft
  apply strOccurs_appendLeft
  apply strOccurs_appendLeft
  apply strOccurs_appendLeft
  apply strOccurs_appendLeft
  apply strOccurs_appendLeft
  apply strOccurs_appendLeft
  apply strOccurs_appendLeft
  apply strOccurs_appendLeft
  apply strOccurs_appendLeft
  apply strOccurs_appendLeft
  apply strOccurs_congr (show ("But always specify only one action name per item" : String) = "But always specify " ++ "only one action name per item" from by decide)
  exact strOccurs_pair _ _ _

/-- C1: composition of the system prompt has no hidden state: with identical
inputs the composed message is identical, and when only the clock input
differs the two composed contents share one common prefix and one common
suffix around their respective embedded `strftime('%Y-%m-%d %H:%M')` stamps,
so they are byte-identical except for the time-stamp substring. The
observation composer `AgentMessagePrompt.get_user_message` takes no datetime
input at all, so it cannot read a clock. -/
theorem system_prompt_pure_modulo_timestamp (ad : String) (m : Int)
    (ia : List String) (d1 d2 : Datetime) :
    ((SystemPrompt.mk ad d1 m ia).get_system_message =
      (SystemPrompt.mk ad d1 m ia).get_system_message) ∧
    ∃ pre suf,
      (SystemPrompt.mk ad d1 m ia).get_system_message.content =
        pre ++ (d1.strftimeYmdHM ++ suf) ∧
      (SystemPrompt.mk ad d2 m ia).get_system_message.content =
        pre ++ (d2.strftimeYmdHM ++ suf) :=
  ⟨rfl,
   sysPromptIntro,
   "\n\n" ++ (inputFormatText ++ ("\n\n" ++ ((rulesText ++ ("   - " ++ ("use maximum " ++ (toString m ++ " actions per sequence")))) ++ ("\n\n" ++ ("Functions:\n" ++ (ad ++ sysPromptTail)))))),
   rfl, rfl⟩

/-- C5: the rule set embedded in the system message specifies the exact
response JSON shape the parser depends on: the top-level `current_state`
object with its three string fields `evaluation_previous_goal`, `memory`,
`next_goal`, the `action` array, and the instruction that each array item
carries exactly one action name. -/
theorem important_rules_response_schema (sp : SystemPrompt) :
    strOccurs "\"current_state\": \x7b" sp.get_system_message.content ∧
    strOccurs "\"evaluation_previous_goal\": \"" sp.get_system_message.content ∧
    strOccurs "\"memory\": \"" sp.get_system_message.content ∧
    strOccurs "\"next_goal\": \"" sp.get_system_message.content ∧
    strOccurs "\"action\": [" sp.get_system_message.content ∧
    strOccurs "But always specify only one action name per item" sp.get_system_message.content :=
  ⟨strOccurs_in_rulesText_system sp rulesText_occ_current_state,
   strOccurs_in_rulesText_system sp rulesText_occ_eval_goal,
   strOccurs_in_rulesText_system sp rulesText_occ_memory,
   strOccurs_in_rulesText_system sp rulesText_occ_next_goal,
   strOccurs_in_rulesText_system sp rulesText_occ_action,
   strOccurs_in_rulesText_system sp rulesText_occ_one_action_name⟩

/-- C6: the composed system message embeds the caller-supplied action catalog
verbatim, directly after the `Functions:` heading and before the fixed
closing reminder, and it states the per-step cap as the literal sentence
`use maximum N actions per sequence` with N the configured
max_actions_per_step. -/
theorem system_message_catalog_and_cap (ad : String) (d : Datetime) (m : Int)
    (ia : List String) :
    (∃ pre, (SystemPrompt.mk ad d m ia).get_system_message.content =
      pre ++ ("Functions:\n" ++ (ad ++ sysPromptTail))) ∧
    strOccurs ("use maximum " ++ (toString m ++ " actions per sequence"))
      (SystemPrompt.mk ad d m ia).get_system_message.content := by
  constructor
  · refine ⟨sysPromptIntro ++ (d.strftimeYmdHM ++ ("\n\n" ++ (inputFormatText ++ ("\n\n" ++ ((SystemPrompt.mk ad d m ia).important_rules ++ "\n\n"))))), ?_⟩
    show sysPromptIntro ++ (d.strftimeYmdHM ++ ("\n\n" ++ (inputFormatText ++ ("\n\n" ++ ((SystemPrompt.mk ad d m ia).important_rules ++ ("\n\n" ++ ("Functions:\n" ++ (ad ++ sysPromptTail)))))))) = _
    simp [String.append_assoc]
  · apply strOccurs_in_important_rules_system
    show strOccurs _ (rulesText ++ ("   - " ++ ("use maximum " ++ (toString m ++ " actions per sequence"))))
    apply strOccurs_appendLeft
    apply strOccurs_appendLeft
    exact strOccurs_refl _

/-- C2 counterexample: with max_error_length configured to 0 and the one-byte
error 'x' (longer than the configured maximum), Python's slice `s[-0:]` is
the whole string, so the composed prompt renders `...x` instead of the
trailing 0 characters `...` that the claim requires; the claim-conforming
text differs from the actual one. -/
theorem user_message_truncation_counterexample :
    ((0 : Int) < (("x" : String).length : Int)) ∧
    pySliceFrom (-(0 : Int)) "x" = "x" ∧
    (AgentMessagePrompt.get_user_message ⟨some ⟨"u", [], ⟨[]⟩, none⟩, some [⟨none, some "x"⟩], [], 0, none, none, none⟩ =
      some ⟨HumanContent.ofText "\n\nCurrent URL: u\nAvailable tabs:\n[]\nInteractive elements from current page view:\n\n\nAction error 1/1: ...x"⟩) ∧
    ("\n\nCurrent URL: u\nAvailable tabs:\n[]\nInteractive elements from current page view:\n\n\nAction error 1/1: ...x" ≠
      "\n\nCurrent URL: u\nAvailable tabs:\n[]\nInteractive elements from current page view:\n\n\nAction error 1/1: ...") := by
  refine ⟨by decide, by decide, by decide, by decide⟩

/-- C2 (amended): for a positive configured max_error_length, every rendered
action result whose error is strictly longer than the limit has its error
truncated to exactly its trailing max_error_length characters (a suffix of
that exact length), rendered after the `...` marker in its error line of the
composed observation prompt. -/
theorem user_message_error_truncation (p : AgentMessagePrompt) (st : BrowserState)
    (rs : List ActionResult) (i : Nat) (r : ActionResult) (e : String)
    (hst : p.state = some st) (hrs : p.result = some rs)
    (hi : rs[i]? = some r) (he : r.error = some e)
    (hpos : 0 < p.max_error_length)
    (hlong : p.max_error_length < (e.length : Int)) :
    ∃ msg t,
      p.get_user_message = some msg ∧
      t = e.drop (e.length - p.max_error_length.toNat) ∧
      ((t.length : Int) = p.max_error_length) ∧
      (∃ hd, e = hd ++ t) ∧
      strOccurs ("\nAction error " ++ (toString (i + 1) ++ ("/" ++ (toString rs.length ++ (": ..." ++ t)))))
        (humanText msg) := by
  obtain ⟨msg, hmsg, htext⟩ := get_user_message_text p st hst
  obtain ⟨hslice, hlen, hhd⟩ :=
    pySliceFrom_neg_spec p.max_error_length e hpos hlong
  refine ⟨msg, pySliceFrom (-p.max_error_length) e, hmsg, hslice, hlen, hhd, ?_⟩
  rw [htext]
  have hne : e ≠ "" := by
    intro h
    rw [h] at hlong
    simp [String.length_empty] at hlong
    omega
  have htruthy : optListTruthy p.result = true := by
    rw [hrs]
    cases rs with
    | nil => simp at hi
    | cons a l => simp [optListTruthy]
  unfold AgentMessagePrompt.state_description
  rw [if_pos htruthy]
  simp only [hrs, Option.getD_some]
  rw [show i + 1 = 0 + i + 1 from by omega]
  exact renderResults_occurs_error rs.length p.max_error_length rs r e 0 i
    (p.base_state_description st) hi he hne

/-- Witness for the amended C2 theorem at a concrete input: max_error_length
2, error text 'abcde' of length 5. -/
theorem user_message_error_truncation_witness :
    ((⟨some ⟨"u", [], ⟨[]⟩, none⟩, some [⟨none, some "abcde"⟩], [], 2, none, none, none⟩ : AgentMessagePrompt).state = some ⟨"u", [], ⟨[]⟩, none⟩) ∧
    ((⟨some ⟨"u", [], ⟨[]⟩, none⟩, some [⟨none, some "abcde"⟩], [], 2, none, none, none⟩ : AgentMessagePrompt).result = some [⟨none, some "abcde"⟩]) ∧
    (([(⟨none, some "abcde"⟩ : ActionResult)])[0]? = some ⟨none, some "abcde"⟩) ∧
    ((⟨none, some "abcde"⟩ : ActionResult).error = some "abcde") ∧
    ((0 : Int) < (2 : Int)) ∧
    ((2 : Int) < (("abcde" : String).length : Int)) ∧
    (∃ msg t,
      (⟨some ⟨"u", [], ⟨[]⟩, none⟩, some [⟨none, some "abcde"⟩], [], 2, none, none, none⟩ : AgentMessagePrompt).get_user_message = some msg ∧
      t = ("abcde" : String).drop (("abcde" : String).length - (2 : Int).toNat) ∧
      ((t.length : Int) = (2 : Int)) ∧
      (∃ hd, ("abcde" : String) = hd ++ t) ∧
      strOccurs ("\nAction error " ++ (toString (0 + 1) ++ ("/" ++ (toString [(⟨none, some "abcde"⟩ : ActionResult)].length ++ (": ..." ++ t)))))
        (humanText msg)) :=
  ⟨rfl, rfl, rfl, rfl, by decide, by decide,
   user_message_error_truncation _ ⟨"u", [], ⟨[]⟩, none⟩ [⟨none, some "abcde"⟩] 0
     ⟨none, some "abcde"⟩ "abcde" rfl rfl rfl rfl (by decide) (by decide)⟩

/-- C3: the observation message is multi-part (text part then image part
embedding the screenshot as a base64 data URL) exactly when the state
carries a Python-truthy screenshot, and text-only otherwise. -/
theorem user_message_screenshot_shape (p : AgentMessagePrompt) (st : BrowserState)
    (hst : p.state = some st) :
    (∀ sc, st.screenshot = some sc → sc ≠ "" →
      p.get_user_message = some ⟨HumanContent.ofParts
        [MessagePart.textPart (p.state_description st),
         MessagePart.imageUrlPart ("data:image/png;base64," ++ sc)]⟩) ∧
    (optStrTruthy st.screenshot = false →
      p.get_user_message = some ⟨HumanContent.ofText (p.state_description st)⟩) := by
  constructor
  · intro sc hsc hne
    simp [AgentMessagePrompt.get_user_message, hst, hsc, optStrTruthy, hne]
  · intro h
    simp [AgentMessagePrompt.get_user_message, hst, h]

/-- Witness for the C3 theorem at concrete inputs: one state with screenshot
'S' yields the two-part vision message, one without a screenshot yields the
text-only message. -/
theorem user_message_screenshot_shape_witness :
    ((⟨some ⟨"u", [], ⟨[]⟩, some "S"⟩, none, [], 400, none, none, none⟩ : AgentMessagePrompt).state = some ⟨"u", [], ⟨[]⟩, some "S"⟩) ∧
    ((⟨"u", [], ⟨[]⟩, some "S"⟩ : BrowserState).screenshot = some "S") ∧
    ("S" : String) ≠ "" ∧
    ((⟨some ⟨"u", [], ⟨[]⟩, some "S"⟩, none, [], 400, none, none, none⟩ : AgentMessagePrompt).get_user_message =
      some ⟨HumanContent.ofParts
        [MessagePart.textPart ((⟨some ⟨"u", [], ⟨[]⟩, some "S"⟩, none, [], 400, none, none, none⟩ : AgentMessagePrompt).state_description ⟨"u", [], ⟨[]⟩, some "S"⟩),
         MessagePart.imageUrlPart ("data:image/png;base64," ++ "S")]⟩) ∧
    ((⟨some ⟨"u", [], ⟨[]⟩, none⟩, none, [], 400, none, none, none⟩ : AgentMessagePrompt).state = some ⟨"u", [], ⟨[]⟩, none⟩) ∧
    (optStrTruthy (⟨"u", [], ⟨[]⟩, none⟩ : BrowserState).screenshot = false) ∧
    ((⟨some ⟨"u", [], ⟨[]⟩, none⟩, none, [], 400, none, none, none⟩ : AgentMessagePrompt).get_user_message =
      some ⟨HumanContent.ofText ((⟨some ⟨"u", [], ⟨[]⟩, none⟩, none, [], 400, none, none, none⟩ : AgentMessagePrompt).state_description ⟨"u", [], ⟨[]⟩, none⟩)⟩) :=
  ⟨rfl, rfl, by decide, (user_message_screenshot_shape _ _ rfl).1 "S" rfl (by decide),
   rfl, rfl, (user_message_screenshot_shape _ _ rfl).2 rfl⟩

set_option maxRecDepth 8192 in
/-- C4 counterexample: a state with zero elements renders to the empty
string, and the prompt composed from it embeds the empty elements block
verbatim; the literal 'empty page' marker appears nowhere in the composed
text, refuting the claim at this input. -/
theorem empty_page_counterexample :
    (DOMElementNode.clickable_elements_to_string ⟨[]⟩ [] = "") ∧
    (AgentMessagePrompt.get_user_message ⟨some ⟨"about:blank", [], ⟨[]⟩, none⟩, none, [], 400, none, none, none⟩ =
      some ⟨HumanContent.ofText "\n\nCurrent URL: about:blank\nAvailable tabs:\n[]\nInteractive elements from current page view:\n\n"⟩) ∧
    ¬ strOccurs "empty page" "\n\nCurrent URL: about:blank\nAvailable tabs:\n[]\nInteractive elements from current page view:\n\n" := by
  refine ⟨rfl, by decide, ?_⟩
  rw [strOccurs_data_iff]
  decide

/-- C4 (amended): the composer embeds the element rendering verbatim with no
substitution: whenever the rendering of the current state's elements is the
empty string, the composed observation prompt contains the elements header
immediately followed by the terminating newline, an empty elements block (no
'empty page' marker is inserted, as the counterexample shows concretely). -/
theorem empty_elements_render_verbatim (p : AgentMessagePrompt) (st : BrowserState)
    (hst : p.state = some st)
    (hempty : st.element_tree.clickable_elements_to_string p.include_attributes = "") :
    ∃ msg, p.get_user_message = some msg ∧
      strOccurs "\nInteractive elements from current page view:\n\n" (humanText msg) := by
  obtain ⟨msg, hmsg, htext⟩ := get_user_message_text p st hst
  refine ⟨msg, hmsg, ?_⟩
  rw [htext]
  obtain ⟨t, ht⟩ := state_description_decomp p st
  rw [ht]
  apply strOccurs_appendRight
  unfold AgentMessagePrompt.base_state_description
  apply strOccurs_appendLeft
  apply strOccurs_appendLeft
  apply strOccurs_appendLeft
  apply strOccurs_appendLeft
  apply strOccurs_appendLeft
  apply strOccurs_appendLeft
  rw [hempty, String.empty_append]
  apply strOccurs_congr
    (show ("\nInteractive elements from current page view:\n\n" : String) =
      "\nInteractive elements from current page view:\n" ++ "\n" from by decide)
  exact strOccurs_refl _

/-- Witness for the amended C4 theorem at a concrete zero-element state. -/
theorem empty_elements_render_verbatim_witness :
    ((⟨some ⟨"about:blank", [], ⟨[]⟩, none⟩, none, [], 400, none, none, none⟩ : AgentMessagePrompt).state = some ⟨"about:blank", [], ⟨[]⟩, none⟩) ∧
    ((⟨"about:blank", [], ⟨[]⟩, none⟩ : BrowserState).element_tree.clickable_elements_to_string
      (⟨some ⟨"about:blank", [], ⟨[]⟩, none⟩, none, [], 400, none, none, none⟩ : AgentMessagePrompt).include_attributes = "") ∧
    (∃ msg,
      (⟨some ⟨"about:blank", [], ⟨[]⟩, none⟩, none, [], 400, none, none, none⟩ : AgentMessagePrompt).get_user_message = some msg ∧
      strOccurs "\nInteractive elements from current page view:\n\n" (humanText msg)) :=
  ⟨rfl, rfl, empty_elements_render_verbatim _ ⟨"about:blank", [], ⟨[]⟩, none⟩ rfl rfl⟩

theorem strOccurs_trans {p q s : String} (h1 : strOccurs p q) (h2 : strOccurs q s) :
    strOccurs p s := by
  obtain ⟨a, b, rfl⟩ := h1
  obtain ⟨c, d, rfl⟩ := h2
  exact ⟨c ++ a, b ++ d, by simp [String.append_assoc]⟩

/-- C8: prompt composition does not mutate its inputs: in the state-passing
embedding of the five composition operations (which is faithful because the
Python methods contain no assignment to `self` or to any argument and no
I/O call, and Python strings are immutable), the post-state returned by each
operation equals its pre-state; each composed message is a pure function of
the explicit inputs. -/
theorem prompt_composition_preserves_inputs :
    (∀ sp : SystemPrompt, sp.get_system_message_step.2 = sp) ∧
    (∀ (sp : SystemPrompt) (ps : Option BrowserState) (pg : Option String)
        (cs : Option BrowserState) (rs : Option (List ActionResult)),
      (sp.get_eval_prompt_step ps pg cs rs).2 = (sp, ps, pg, cs, rs)) ∧
    (∀ (sp : SystemPrompt) (ng : Option String) (cs : Option BrowserState),
      (sp.get_filter_prompt_step ng cs).2 = (sp, ng, cs)) ∧
    (∀ (sp : SystemPrompt) (er fr ng mem : String),
      (sp.get_action_prompt_step er fr ng mem).2 = (sp, er, fr, ng, mem)) ∧
    (∀ p : AgentMessagePrompt, p.get_user_message_step.2 = p) :=
  ⟨fun _ => rfl, fun _ _ _ _ _ => rfl, fun _ _ _ => rfl, fun _ _ _ _ _ => rfl,
   fun _ => rfl⟩

/-- C9: the evaluation prompt truncates every rendered error with the fixed
slice `[-400:]`, for every `SystemPrompt` whatsoever (the class carries no
max_error_length configuration at all, so no configured limit can influence
it); when the error exceeds 400 characters the rendered text is exactly the
trailing 400 characters. The configurable `max_error_length` lives only on
`AgentMessagePrompt` and feeds only `get_user_message`. -/
theorem eval_prompt_fixed_400_truncation (sp : SystemPrompt)
    (ps : Option BrowserState) (pg : Option String) (cs : Option BrowserState)
    (rs : List ActionResult) (i : Nat) (r : ActionResult) (e : String)
    (hi : rs[i]? = some r) (he : r.error = some e) (hne : e ≠ "") :
    strOccurs ("\nAction error " ++ (toString (i + 1) ++ ("/" ++ (toString rs.length ++ (": ..." ++ pySliceFrom (-(400 : Int)) e)))))
      (sp.get_eval_prompt ps pg cs (some rs)).content ∧
    ((400 : Int) < (e.length : Int) →
      ((pySliceFrom (-(400 : Int)) e).length : Int) = 400 ∧
      ∃ hd, e = hd ++ pySliceFrom (-(400 : Int)) e) := by
  constructor
  · have htruthy : optListTruthy (some rs) = true := by
      cases rs with
      | nil => simp at hi
      | cons a l => simp [optListTruthy]
    have hx : (sp.get_eval_prompt ps pg cs (some rs)).content =
        evalPromptIntro ++ (renderResults rs.length 400 0 rs (evalStateContext sp ps pg cs) ++ ("\nCurrent date and time: " ++ (sp.current_date.strftimeYmdHM ++ evalPromptTail))) := by
      show evalPromptIntro ++ ((if optListTruthy (some rs) then renderResults ((some rs).getD []).length 400 0 ((some rs).getD []) (evalStateContext sp ps pg cs) else evalStateContext sp ps pg cs) ++ ("\nCurrent date and time: " ++ (sp.current_date.strftimeYmdHM ++ evalPromptTail))) = _
      rw [if_pos htruthy]
      simp only [Option.getD_some]
    rw [hx]
    apply strOccurs_appendLeft
    apply strOccurs_appendRight
    rw [show i + 1 = 0 + i + 1 from by omega]
    exact renderResults_occurs_error rs.length 400 rs r e 0 i
      (evalStateContext sp ps pg cs) hi he hne
  · intro hlong
    obtain ⟨hs, hl, hh⟩ := pySliceFrom_neg_spec 400 e (by decide) hlong
    exact ⟨hl, hh⟩

/-- Witness for the C9 theorem at a concrete input: a single result with
error 'err'. -/
theorem eval_prompt_fixed_400_truncation_witness :
    (([(⟨none, some "err"⟩ : ActionResult)])[0]? = some ⟨none, some "err"⟩) ∧
    ((⟨none, some "err"⟩ : ActionResult).error = some "err") ∧
    (("err" : String) ≠ "") ∧
    (strOccurs ("\nAction error " ++ (toString (0 + 1) ++ ("/" ++ (toString [(⟨none, some "err"⟩ : ActionResult)].length ++ (": ..." ++ pySliceFrom (-(400 : Int)) "err")))))
      ((⟨"cat", ⟨2025, 1, 5, 9, 7⟩, 10, []⟩ : SystemPrompt).get_eval_prompt none none none (some [⟨none, some "err"⟩])).content ∧
     ((400 : Int) < (("err" : String).length : Int) →
       ((pySliceFrom (-(400 : Int)) ("err" : String)).length : Int) = 400 ∧
       ∃ hd, ("err" : String) = hd ++ pySliceFrom (-(400 : Int)) "err")) :=
  ⟨rfl, rfl, by decide,
   eval_prompt_fixed_400_truncation ⟨"cat", ⟨2025, 1, 5, 9, 7⟩, 10, []⟩ none none none
     [⟨none, some "err"⟩] 0 ⟨none, some "err"⟩ "err" rfl rfl (by decide)⟩

set_option maxRecDepth 8192 in
/-- C10 counterexample: previous_state and previous_goal are both provided
(both are `some`), yet because the provided goal is the empty string, Python
truthiness drops the whole previous-state comparison section from the
composed prompt, refuting the claimed equivalence at this input. -/
theorem previous_comparison_counterexample :
    ((⟨some ⟨"u", [], ⟨[]⟩, none⟩, none, [], 400, none, some ⟨"pu", [], ⟨[]⟩, none⟩, some ""⟩ : AgentMessagePrompt).previous_state.isSome = true) ∧
    ((⟨some ⟨"u", [], ⟨[]⟩, none⟩, none, [], 400, none, some ⟨"pu", [], ⟨[]⟩, none⟩, some ""⟩ : AgentMessagePrompt).previous_goal.isSome = true) ∧
    ((⟨some ⟨"u", [], ⟨[]⟩, none⟩, none, [], 400, none, some ⟨"pu", [], ⟨[]⟩, none⟩, some ""⟩ : AgentMessagePrompt).get_user_message =
      some ⟨HumanContent.ofText "\n\nCurrent URL: u\nAvailable tabs:\n[]\nInteractive elements from current page view:\n\n"⟩) ∧
    ¬ strOccurs "Previous Goal" "\n\nCurrent URL: u\nAvailable tabs:\n[]\nInteractive elements from current page view:\n\n" := by
  refine ⟨rfl, rfl, by decide, ?_⟩
  rw [strOccurs_data_iff]
  decide

/-- C10 (amended): the previous-state comparison section appears in the
composed observation prompt exactly when previous_state is provided and
previous_goal is provided and non-empty (Python truthiness of the pair);
whenever previous_state is missing, or previous_goal is missing or the empty
string, the comparison block is empty and the composed message is identical
to the one composed with no previous information at all. -/
theorem previous_comparison_condition (p : AgentMessagePrompt) :
    (∀ ps g, p.previous_state = some ps → p.previous_goal = some g → g ≠ "" →
      p.state_comparison =
        "\nPrevious Goal: " ++ (g ++ ("\nPrevious URL: " ++ (ps.url ++ ("\nPrevious Elements: " ++ (ps.element_tree.clickable_elements_to_string p.include_attributes ++ "\n")))))) ∧
    (∀ st ps g, p.state = some st → p.previous_state = some ps →
      p.previous_goal = some g → g ≠ "" →
      ∃ msg, p.get_user_message = some msg ∧
        strOccurs ("\nPrevious Goal: " ++ (g ++ "\nPrevious URL: ")) (humanText msg)) ∧
    ((p.previous_state = none ∨ p.previous_goal = none ∨ p.previous_goal = some "") →
      p.state_comparison = "" ∧
      p.get_user_message = AgentMessagePrompt.get_user_message
        ⟨p.state, p.result, p.include_attributes, p.max_error_length, p.step_info, none, none⟩) := by
  refine ⟨?_, ?_, ?_⟩
  · intro ps g hps hpg hg
    simp [AgentMessagePrompt.state_comparison, hps, hpg, hg]
  · intro st ps g hst hps hpg hg
    obtain ⟨msg, hmsg, htext⟩ := get_user_message_text p st hst
    refine ⟨msg, hmsg, ?_⟩
    rw [htext]
    obtain ⟨t, ht⟩ := state_description_decomp p st
    rw [ht]
    apply strOccurs_appendRight
    unfold AgentMessagePrompt.base_state_description
    apply strOccurs_appendLeft
    have hcmp : p.state_comparison =
        "\nPrevious Goal: " ++ (g ++ ("\nPrevious URL: " ++ (ps.url ++ ("\nPrevious Elements: " ++ (ps.element_tree.clickable_elements_to_string p.include_attributes ++ "\n"))))) := by
      simp [AgentMessagePrompt.state_comparison, hps, hpg, hg]
    rw [hcmp]
    apply strOccurs_appendRight
    refine ⟨"", ps.url ++ ("\nPrevious Elements: " ++ (ps.element_tree.clickable_elements_to_string p.include_attributes ++ "\n")), ?_⟩
    simp [String.append_assoc, String.empty_append]
  · intro h
    have hcmp : p.state_comparison = "" := by
      rcases h with h | h | h
      · simp [AgentMessagePrompt.state_comparison, h]
      · cases hps : p.previous_state <;>
          simp [AgentMessagePrompt.state_comparison, h, hps]
      · cases hps : p.previous_state <;>
          simp [AgentMessagePrompt.state_comparison, h, hps]
    refine ⟨hcmp, ?_⟩
    cases hst : p.state with
    | none => simp [AgentMessagePrompt.get_user_message, hst]
    | some st =>
      have hcmp3 : AgentMessagePrompt.state_comparison
          ⟨some st, p.result, p.include_attributes, p.max_error_length, p.step_info, none, none⟩ = "" := rfl
      simp [AgentMessagePrompt.get_user_message, AgentMessagePrompt.state_description,
        AgentMessagePrompt.base_state_description, hst, hcmp, hcmp3]

/-- Witness for the amended C10 theorem: a prompt with previous state 'pu'
and non-empty previous goal 'g' renders the comparison section; a prompt
whose previous goal is the empty string renders none and equals the
no-previous-info composition. -/
theorem previous_comparison_condition_witness :
    ((⟨some ⟨"u", [], ⟨[]⟩, none⟩, none, [], 400, none, some ⟨"pu", [], ⟨[]⟩, none⟩, some "g"⟩ : AgentMessagePrompt).previous_state = some ⟨"pu", [], ⟨[]⟩, none⟩) ∧
    ((⟨some ⟨"u", [], ⟨[]⟩, none⟩, none, [], 400, none, some ⟨"pu", [], ⟨[]⟩, none⟩, some "g"⟩ : AgentMessagePrompt).previous_goal = some "g") ∧
    (("g" : String) ≠ "") ∧
    ((⟨some ⟨"u", [], ⟨[]⟩, none⟩, none, [], 400, none, some ⟨"pu", [], ⟨[]⟩, none⟩, some "g"⟩ : AgentMessagePrompt).state_comparison =
      "\nPrevious Goal: " ++ ("g" ++ ("\nPrevious URL: " ++ ("pu" ++ ("\nPrevious Elements: " ++ ((⟨"pu", [], ⟨[]⟩, none⟩ : BrowserState).element_tree.clickable_elements_to_string [] ++ "\n")))))) ∧
    (∃ msg, (⟨some ⟨"u", [], ⟨[]⟩, none⟩, none, [], 400, none, some ⟨"pu", [], ⟨[]⟩, none⟩, some "g"⟩ : AgentMessagePrompt).get_user_message = some msg ∧
      strOccurs ("\nPrevious Goal: " ++ ("g" ++ "\nPrevious URL: ")) (humanText msg)) ∧
    ((⟨some ⟨"u", [], ⟨[]⟩, none⟩, none, [], 400, none, some ⟨"pu", [], ⟨[]⟩, none⟩, some ""⟩ : AgentMessagePrompt).previous_goal = some "") ∧
    ((⟨some ⟨"u", [], ⟨[]⟩, none⟩, none, [], 400, none, some ⟨"pu", [], ⟨[]⟩, none⟩, some ""⟩ : AgentMessagePrompt).state_comparison = "" ∧
     (⟨some ⟨"u", [], ⟨[]⟩, none⟩, none, [], 400, none, some ⟨"pu", [], ⟨[]⟩, none⟩, some ""⟩ : AgentMessagePrompt).get_user_message =
       AgentMessagePrompt.get_user_message ⟨some ⟨"u", [], ⟨[]⟩, none⟩, none, [], 400, none, none, none⟩) :=
  ⟨rfl, rfl, by decide,
   (previous_comparison_condition _).1 ⟨"pu", [], ⟨[]⟩, none⟩ "g" rfl rfl (by decide),
   (previous_comparison_condition _).2.1 ⟨"u", [], ⟨[]⟩, none⟩ ⟨"pu", [], ⟨[]⟩, none⟩ "g" rfl rfl rfl (by decide),
   rfl,
   (previous_comparison_condition _).2.2 (Or.inr (Or.inr rfl))⟩

/-- C7: in the spec-modelled Step Pipeline executing stage, a 3-action
decision where the driver reports a page change after action 2 executes
exactly actions 1 and 2: the aggregated results are the two executed
results followed by the interruption notice (action 3 contributes nothing,
and the aggregate does not depend on the driver's behaviour on action 3),
and the next observation prompt composed from these results contains both
executed results and the note that the sequence was interrupted. -/
theorem pipeline_interrupt_after_two (a1 a2 a3 : AgentAction)
    (driver : AgentAction → DriverOutcome) (r1 r2 : ActionResult)
    (h1 : driver a1 = ⟨r1, false⟩) (h2 : driver a2 = ⟨r2, true⟩) :
    aggregateResults driver [a1, a2, a3] = [r1, r2, interruption_notice 2 3] ∧
    (∀ driver2 : AgentAction → DriverOutcome, driver2 a1 = ⟨r1, false⟩ →
      driver2 a2 = ⟨r2, true⟩ →
      aggregateResults driver2 [a1, a2, a3] = aggregateResults driver [a1, a2, a3]) ∧
    (∀ (p : AgentMessagePrompt) (st : BrowserState) (c1 c2 : String),
      p.state = some st →
      p.result = some (aggregateResults driver [a1, a2, a3]) →
      r1.extracted_content = some c1 → c1 ≠ "" →
      r2.extracted_content = some c2 → c2 ≠ "" →
      ∃ msg, p.get_user_message = some msg ∧
        strOccurs ("\nAction result " ++ (toString 1 ++ ("/" ++ (toString 3 ++ (": " ++ c1))))) (humanText msg) ∧
        strOccurs ("\nAction result " ++ (toString 2 ++ ("/" ++ (toString 3 ++ (": " ++ c2))))) (humanText msg) ∧
        strOccurs "The sequence was interrupted" (humanText msg)) := by
  have hagg : aggregateResults driver [a1, a2, a3] = [r1, r2, interruption_notice 2 3] := by
    simp [aggregateResults, executeActions, h1, h2]
  refine ⟨hagg, ?_, ?_⟩
  · intro d2 hd1 hd2
    rw [hagg]
    simp [aggregateResults, executeActions, hd1, hd2]
  · intro p st c1 c2 hst hres hc1 hn1 hc2 hn2
    rw [hagg] at hres
    obtain ⟨msg, hmsg, htext⟩ := get_user_message_text p st hst
    have htruthy : optListTruthy p.result = true := by
      rw [hres]; simp [optListTruthy]
    have hdesc : p.state_description st =
        renderResults 3 p.max_error_length 0 [r1, r2, interruption_notice 2 3]
          (p.base_state_description st) := by
      unfold AgentMessagePrompt.state_description
      rw [if_pos htruthy]
      simp only [hres, Option.getD_some, List.length_cons, List.length_nil]
    refine ⟨msg, hmsg, ?_, ?_, ?_⟩ <;> rw [htext, hdesc]
    · exact renderResults_occurs_result 3 p.max_error_length
        [r1, r2, interruption_notice 2 3] r1 c1 0 0
        (p.base_state_description st) rfl hc1 hn1
    · exact renderResults_occurs_result 3 p.max_error_length
        [r1, r2, interruption_notice 2 3] r2 c2 0 1
        (p.base_state_description st) rfl hc2 hn2
    · have hline := renderResults_occurs_result 3 p.max_error_length
        [r1, r2, interruption_notice 2 3] (interruption_notice 2 3)
        ("The sequence was interrupted" ++ (" after action " ++ (toString 2 ++ ("/" ++ (toString 3 ++ "; the remaining actions were discarded")))))
        0 2 (p.base_state_description st) rfl rfl (by decide)
      apply strOccurs_trans _ hline
      apply strOccurs_appendLeft
      apply strOccurs_appendLeft
      apply strOccurs_appendLeft
      apply strOccurs_appendLeft
      apply strOccurs_appendLeft
      exact strOccurs_head _ _

/-- Witness for the C7 theorem at a concrete decision and driver: three
named actions, a driver that succeeds on the first, reports a page change on
the second, and would fail the third; the composed observation prompt for
the aggregated results carries both result lines and the interruption note. -/
theorem pipeline_interrupt_after_two_witness :
    ((fun a => if a.name = "go" then (⟨⟨some "one", none⟩, false⟩ : DriverOutcome)
       else if a.name = "fill" then ⟨⟨some "two", none⟩, true⟩
       else ⟨⟨none, some "boom"⟩, false⟩) (⟨"go", []⟩ : AgentAction) = ⟨⟨some "one", none⟩, false⟩) ∧
    ((fun a => if a.name = "go" then (⟨⟨some "one", none⟩, false⟩ : DriverOutcome)
       else if a.name = "fill" then ⟨⟨some "two", none⟩, true⟩
       else ⟨⟨none, some "boom"⟩, false⟩) (⟨"fill", []⟩ : AgentAction) = ⟨⟨some "two", none⟩, true⟩) ∧
    (aggregateResults
      (fun a => if a.name = "go" then (⟨⟨some "one", none⟩, false⟩ : DriverOutcome)
        else if a.name = "fill" then ⟨⟨some "two", none⟩, true⟩
        else ⟨⟨none, some "boom"⟩, false⟩)
      [⟨"go", []⟩, ⟨"fill", []⟩, ⟨"click", []⟩] =
      [⟨some "one", none⟩, ⟨some "two", none⟩, interruption_notice 2 3]) ∧
    (∃ msg,
      (⟨some ⟨"u", [], ⟨[]⟩, none⟩,
        some (aggregateResults
          (fun a => if a.name = "go" then (⟨⟨some "one", none⟩, false⟩ : DriverOutcome)
            else if a.name = "fill" then ⟨⟨some "two", none⟩, true⟩
            else ⟨⟨none, some "boom"⟩, false⟩)
          [⟨"go", []⟩, ⟨"fill", []⟩, ⟨"click", []⟩]),
        [], 400, none, none, none⟩ : AgentMessagePrompt).get_user_message = some msg ∧
      strOccurs ("\nAction result " ++ (toString 1 ++ ("/" ++ (toString 3 ++ (": " ++ "one"))))) (humanText msg) ∧
      strOccurs ("\nAction result " ++ (toString 2 ++ ("/" ++ (toString 3 ++ (": " ++ "two"))))) (humanText msg) ∧
      strOccurs "The sequence was interrupted" (humanText msg)) := by
  refine ⟨by decide, by decide, ?_, ?_⟩
  · exact (pipeline_interrupt_after_two ⟨"go", []⟩ ⟨"fill", []⟩ ⟨"click", []⟩ _
      ⟨some "one", none⟩ ⟨some "two", none⟩ (by decide) (by decide)).1
  · exact (pipeline_interrupt_after_two ⟨"go", []⟩ ⟨"fill", []⟩ ⟨"click", []⟩ _
      ⟨some "one", none⟩ ⟨some "two", none⟩ (by decide) (by decide)).2.2
      _ ⟨"u", [], ⟨[]⟩, none⟩ "one" "two" rfl rfl rfl (by decide) rfl (by decide)
